import Mathlib

/-!
Shallow embedding of the Business Ops Dashboard API
(src/main.py together with the request models of src/schemas.py).

Modelling conventions:

* MongoDB documents are association lists `List (String × Val)`.  A Python
  dict assignment `d[k] = v` is modelled by prepending the binding `(k, v)`;
  `getField` returns the first binding for a key, so this is observationally
  the same as in-place replacement.
* Python floats are modelled as `ℚ`: the business arithmetic in the source is
  only addition, subtraction, `max` and comparisons of amounts.
* `datetime` / `date` values are modelled as integers (calendar days for
  dates, abstract instants for timestamps) wrapped in `Val.dat`.  A stored
  `end_date` that is a date object or a parseable ISO string is modelled as
  already parsed (`Val.dat`); an unparseable stored string is `Val.str`;
  Python `None` is `Val.vnone`.  `date.fromisoformat` plus its `except`
  guard is then the total function `readEndDate`.
* `bson.ObjectId s` accepts exactly the 24-hex-digit strings and raises
  `InvalidId` otherwise; `wellFormedId` captures that.
* `insert_one` appends the new document (with its fresh `_id`, supplied to
  the embedded operation as an explicit argument, mirroring the id that the
  driver generates) to the end of the collection list.  The
  `.sort("created_at", -1)` of the list endpoints is omitted: it only
  permutes the returned list and every property proved below is per-entry or
  order-insensitive.
* The clock (`date.today()`, `datetime.now`) is passed in as explicit
  `today` / `now` arguments.
-/

inductive Val where
  | num (q : ℚ)
  | str (s : String)
  | dat (d : Int)
  | vnone
  | arr (l : List String)
deriving DecidableEq

abbrev Doc := List (String × Val)

/-- `d.get(k)` / `d[k]` lookup on a document: first binding wins. -/
def getField (d : Doc) (k : String) : Option Val :=
  (d.find? (fun kv => kv.1 == k)).map (fun kv => kv.2)

/-- `d[k] = v`: prepend the binding; `getField` sees the newest one. -/
def setField (d : Doc) (k : String) (v : Val) : Doc :=
  (k, v) :: d

/-- `float(d.get(k, 0))` on a numeric-or-missing field. -/
def getNum (d : Doc) (k : String) : ℚ :=
  match getField d k with
  | some (Val.num q) => q
  | _ => 0

/-- `str(d.get("_id"))`. -/
def idString (d : Doc) : String :=
  match getField d "_id" with
  | some (Val.str s) => s
  | _ => "None"

/-- `str(d.get(k))` as used by the f-strings of the notifier. -/
def showField (d : Doc) (k : String) : String :=
  match getField d k with
  | some (Val.str s) => s
  | some (Val.num q) => toString q
  | some (Val.dat t) => toString t
  | some (Val.arr l) => toString l
  | some Val.vnone => "None"
  | none => "None"

def isHexDigitChar (c : Char) : Bool :=
  "0123456789abcdefABCDEF".toList.contains c

/-- The strings accepted by `bson.ObjectId`: exactly 24 hex digits. -/
def wellFormedId (s : String) : Bool :=
  s.length == 24 && s.toList.all isHexDigitChar

/-- `find_one({"_id": ObjectId(i)})` (for an already well-formed `i`). -/
def findById (col : List Doc) (i : String) : Option Doc :=
  col.find? (fun d => getField d "_id" == some (Val.str i))

/-- `update_one(filter, {"$set": ...})`: rewrite the first matching document. -/
def updateOne (col : List Doc) (p : Doc → Bool) (f : Doc → Doc) : List Doc :=
  match col with
  | [] => []
  | d :: rest => if p d then f d :: rest else d :: updateOne rest p f

/-- The five Mongo collections plus the blob store of saved upload names. -/
structure DB where
  customer : List Doc := []
  po : List Doc := []
  invoice : List Doc := []
  agreement : List Doc := []
  payment : List Doc := []
  uploads : List String := []
deriving DecidableEq

def dbEmpty : DB := {}

def optStr : Option String → Val
  | some s => Val.str s
  | none => Val.vnone

def optDat : Option Int → Val
  | some d => Val.dat d
  | none => Val.vnone

/-! Request models (src/schemas.py), with `model_dump` as `toDoc`.
`Literal` enum fields are modelled as `String` carrying their declared
defaults; pydantic's `ge=0` bounds on amounts are input validation and appear
as hypotheses on the theorems that need them. -/

structure Customer where
  name : String
  contact_person : Option String := none
  email : Option String := none
  phone : Option String := none
  industry : Option String := none
  tax_id : Option String := none
  address : Option String := none
  notes : Option String := none
  company_profile_url : Option String := none
  kyc_url : Option String := none
  master_service_agreement_url : Option String := none
deriving DecidableEq

def Customer.toDoc (p : Customer) : Doc :=
  [("name", Val.str p.name), ("contact_person", optStr p.contact_person),
   ("email", optStr p.email), ("phone", optStr p.phone),
   ("industry", optStr p.industry), ("tax_id", optStr p.tax_id),
   ("address", optStr p.address), ("notes", optStr p.notes),
   ("company_profile_url", optStr p.company_profile_url),
   ("kyc_url", optStr p.kyc_url),
   ("master_service_agreement_url", optStr p.master_service_agreement_url)]

structure Po where
  po_number : String
  customer_id : String
  po_date : Option Int := none
  amount : ℚ
  description : Option String := none
  validity : Option String := none
  status : String := "Active"
  po_pdf_url : Option String := none
  related_docs_url : List String := []
deriving DecidableEq

def Po.toDoc (p : Po) : Doc :=
  [("po_number", Val.str p.po_number), ("customer_id", Val.str p.customer_id),
   ("po_date", optDat p.po_date), ("amount", Val.num p.amount),
   ("description", optStr p.description), ("validity", optStr p.validity),
   ("status", Val.str p.status), ("po_pdf_url", optStr p.po_pdf_url),
   ("related_docs_url", Val.arr p.related_docs_url)]

structure Invoice where
  invoice_number : String
  po_id : String
  customer_id : String
  invoice_date : Option Int := none
  due_date : Option Int := none
  amount : ℚ
  amount_received : ℚ := 0
  payment_status : String := "Pending"
  mode_of_payment : Option String := none
  payment_timeline : Option String := none
  invoice_pdf_url : Option String := none
  proof_of_payment_url : Option String := none
deriving DecidableEq

def Invoice.toDoc (p : Invoice) : Doc :=
  [("invoice_number", Val.str p.invoice_number), ("po_id", Val.str p.po_id),
   ("customer_id", Val.str p.customer_id),
   ("invoice_date", optDat p.invoice_date), ("due_date", optDat p.due_date),
   ("amount", Val.num p.amount),
   ("amount_received", Val.num p.amount_received),
   ("payment_status", Val.str p.payment_status),
   ("mode_of_payment", optStr p.mode_of_payment),
   ("payment_timeline", optStr p.payment_timeline),
   ("invoice_pdf_url", optStr p.invoice_pdf_url),
   ("proof_of_payment_url", optStr p.proof_of_payment_url)]

structure Agreement where
  name : String
  type : String := "Agreement"
  customer_id : String
  start_date : Option Int := none
  end_date : Option Int := none
  terms_summary : Option String := none
  renewal_status : String := "Active"
  renewal_due : Option Int := none
  signed_copy_url : Option String := none
  supporting_docs_url : List String := []
deriving DecidableEq

def Agreement.toDoc (p : Agreement) : Doc :=
  [("name", Val.str p.name), ("type", Val.str p.type),
   ("customer_id", Val.str p.customer_id),
   ("start_date", optDat p.start_date), ("end_date", optDat p.end_date),
   ("terms_summary", optStr p.terms_summary),
   ("renewal_status", Val.str p.renewal_status),
   ("renewal_due", optDat p.renewal_due),
   ("signed_copy_url", optStr p.signed_copy_url),
   ("supporting_docs_url", Val.arr p.supporting_docs_url)]

structure Payment where
  payment_id : String
  invoice_id : String
  customer_id : String
  date : Option Int := none
  amount : ℚ
  mode : Option String := none
  remarks : Option String := none
deriving DecidableEq

def Payment.toDoc (p : Payment) : Doc :=
  [("payment_id", Val.str p.payment_id),
   ("invoice_id", Val.str p.invoice_id),
   ("customer_id", Val.str p.customer_id), ("date", optDat p.date),
   ("amount", Val.num p.amount), ("mode", optStr p.mode),
   ("remarks", optStr p.remarks)]

/-! Reference resolution (the repeated try/except blocks of src/main.py). -/

structure ApiError where
  status : Nat
  detail : String
deriving DecidableEq

/-- What can go wrong inside one of the `try:` bodies of the reference
checks: `ObjectId(ref_id)` raises `bson.errors.InvalidId` on a malformed id,
and the handler itself raises `HTTPException(404, not_found_detail)` when the
lookup comes back empty. -/
inductive RefFailure where
  | invalidObjectId
  | httpNotFound (detail : String)
deriving DecidableEq

/-- The body of the `try:` block:
`x = col.find_one({"_id": ObjectId(ref_id)}); if not x: raise HTTPException(404, ...)`. -/
def refLookup (col : List Doc) (refId : String) (notFoundDetail : String) :
    Except RefFailure Doc :=
  if wellFormedId refId then
    match findById col refId with
    | some d => Except.ok d
    | none => Except.error (RefFailure.httpNotFound notFoundDetail)
  else Except.error RefFailure.invalidObjectId

/-- The whole try/except pattern.  `except Exception:` catches every failure
of the body — including the `HTTPException(404, ...)` raised for a missing
record, since `HTTPException` is an `Exception` subclass — and re-raises
`HTTPException(400, invalid_detail)` in its place. -/
def resolveRef (col : List Doc) (refId : String)
    (notFoundDetail invalidDetail : String) : Except ApiError Doc :=
  match refLookup col refId notFoundDetail with
  | Except.ok d => Except.ok d
  | Except.error _ => Except.error ⟨400, invalidDetail⟩

/-! Invoice status derivation: the identical conditional appears at
src/main.py lines 186-191 (create_invoice) and lines 211-216
(list_invoices). -/

def paymentStatusOf (amt received : ℚ) : String :=
  if received ≤ 0 then "Pending"
  else if received < amt then "Partial"
  else "Paid"

/-! Endpoint: POST /api/customers. -/

def create_customer (s : DB) (payload : Customer) (newId : String)
    (now : Int) : DB × String :=
  let data := setField (setField payload.toDoc "created_at" (Val.dat now))
    "updated_at" (Val.dat now)
  ({ s with customer := s.customer ++ [setField data "_id" (Val.str newId)] },
   newId)

/-! Endpoint: POST /api/pos. -/

def po_insert_doc (payload : Po) (now : Int) (newId : String) : Doc :=
  let data := setField (setField payload.toDoc "created_at" (Val.dat now))
    "updated_at" (Val.dat now)
  setField data "_id" (Val.str newId)

def create_po (s : DB) (payload : Po) (newId : String) (now : Int) :
    DB × Except ApiError String :=
  match resolveRef s.customer payload.customer_id "Customer not found"
      "Invalid customer_id" with
  | Except.error e => (s, Except.error e)
  | Except.ok _ =>
    ({ s with po := s.po ++ [po_insert_doc payload now newId] },
     Except.ok newId)

/-! Endpoint: GET /api/pos. -/

/-- `billed = sum(i.get("amount", 0) for i in invoice.find({"po_id": po_id}))`. -/
def billedAmount (s : DB) (poId : String) : ℚ :=
  ((s.invoice.filter
      (fun i => getField i "po_id" == some (Val.str poId))).map
    (fun i => getNum i "amount")).sum

def list_po_entry (s : DB) (d : Doc) : Doc :=
  let billed := billedAmount s (idString d)
  let d1 := setField d "billed_amount" (Val.num billed)
  setField d1 "po_balance" (Val.num (max 0 (getNum d1 "amount" - billed)))

def list_pos (s : DB) (customer_id : Option String) : List Doc :=
  let docs := match customer_id with
    | some c =>
      s.po.filter (fun d => getField d "customer_id" == some (Val.str c))
    | none => s.po
  docs.map (list_po_entry s)

/-! Endpoint: POST /api/invoices. -/

/-- `data = payload.model_dump()` followed by the status normalisation
(`amt = data.get("amount", 0.0) or 0.0` just maps a falsy `0.0` to `0.0`,
the identity here) and the timestamps and generated `_id`. -/
def invoice_insert_doc (payload : Invoice) (now : Int) (newId : String) :
    Doc :=
  let data := payload.toDoc
  let data := setField data "payment_status"
    (Val.str (paymentStatusOf payload.amount payload.amount_received))
  let data := setField data "created_at" (Val.dat now)
  let data := setField data "updated_at" (Val.dat now)
  setField data "_id" (Val.str newId)

def create_invoice (s : DB) (payload : Invoice) (newId : String) (now : Int) :
    DB × Except ApiError String :=
  match resolveRef s.po payload.po_id "PO not found" "Invalid po_id" with
  | Except.error e => (s, Except.error e)
  | Except.ok _ =>
    match resolveRef s.customer payload.customer_id "Customer not found"
        "Invalid customer_id" with
    | Except.error e => (s, Except.error e)
    | Except.ok _ =>
      ({ s with invoice := s.invoice ++ [invoice_insert_doc payload now newId] },
       Except.ok newId)

/-! Endpoint: GET /api/invoices. -/

def list_invoice_entry (d : Doc) : Doc :=
  let amt := getNum d "amount"
  let received := getNum d "amount_received"
  let d1 := setField d "balance_amount" (Val.num (max 0 (amt - received)))
  setField d1 "payment_status" (Val.str (paymentStatusOf amt received))

def list_invoices (s : DB) (po_id customer_id : Option String) : List Doc :=
  let docs := match po_id with
    | some p =>
      s.invoice.filter (fun d => getField d "po_id" == some (Val.str p))
    | none => s.invoice
  let docs := match customer_id with
    | some c =>
      docs.filter (fun d => getField d "customer_id" == some (Val.str c))
    | none => docs
  docs.map list_invoice_entry

/-! Endpoint: POST /api/payments. -/

structure PaymentResp where
  id : String
  invoice_amount_received : ℚ
  invoice_status : String
deriving DecidableEq

def payment_insert_doc (payload : Payment) (now : Int) (newId : String) :
    Doc :=
  let data := setField (setField payload.toDoc "created_at" (Val.dat now))
    "updated_at" (Val.dat now)
  setField data "_id" (Val.str newId)

/-- `total_received = sum(p.get("amount", 0) for p in
payment.find({"invoice_id": invoice_id}))`. -/
def paymentSum (payments : List Doc) (invoiceId : String) : ℚ :=
  ((payments.filter
      (fun p => getField p "invoice_id" == some (Val.str invoiceId))).map
    (fun p => getNum p "amount")).sum

def create_payment (s : DB) (payload : Payment) (newId : String) (now : Int) :
    DB × Except ApiError PaymentResp :=
  match resolveRef s.invoice payload.invoice_id "Invoice not found"
      "Invalid invoice_id" with
  | Except.error e => (s, Except.error e)
  | Except.ok inv =>
    match resolveRef s.customer payload.customer_id "Customer not found"
        "Invalid customer_id" with
    | Except.error e => (s, Except.error e)
    | Except.ok _ =>
      let payments := s.payment ++ [payment_insert_doc payload now newId]
      let total := paymentSum payments payload.invoice_id
      let amt := getNum inv "amount"
      let status :=
        if total ≥ amt then "Paid" else if total > 0 then "Partial"
        else "Pending"
      let invoices := updateOne s.invoice
        (fun d => getField d "_id" == getField inv "_id")
        (fun d => setField (setField (setField d "amount_received"
          (Val.num total)) "payment_status" (Val.str status))
          "updated_at" (Val.dat now))
      ({ s with payment := payments, invoice := invoices },
       Except.ok ⟨newId, total, status⟩)

/-- A sequence of POST /api/payments requests, each with its generated
payment `_id`; `none` when any of them fails. -/
def runPayments : DB → List (Payment × String) → Int → Option DB
  | s, [], _ => some s
  | s, x :: rest, now =>
    match create_payment s x.1 x.2 now with
    | (s1, Except.ok _) => runPayments s1 rest now
    | (_, Except.error _) => none

/-! Endpoint: GET /api/payments (no derived fields are added). -/

def list_payments (s : DB) (invoice_id : Option String) : List Doc :=
  match invoice_id with
  | some i =>
    s.payment.filter (fun d => getField d "invoice_id" == some (Val.str i))
  | none => s.payment

/-! Agreements.  The renewal-window conditional appears verbatim at
src/main.py lines 288-294 (create_agreement), lines 324-329
(list_agreements) and line 358 (check_and_notify_agreement);
`renewalStatusOf` is that conditional, used below to characterise all three
sites. -/

def renewalStatusOf (endDate today : Int) : String :=
  if endDate < today then "Expired"
  else if endDate - 30 ≤ today ∧ today ≤ endDate then "Due"
  else "Active"

/-- `end_date = ag.get("end_date")` followed by the
`isinstance(end_date, str)` / `date.fromisoformat` / `except` dance: a date
value (or parseable ISO string, see the header) parses, anything else is
treated as absent. -/
def readEndDate : Option Val → Option Int
  | some (Val.dat d) => some d
  | _ => none

/-- The document built by POST /api/agreements: `model_dump`, then — only
when an `end_date` was supplied — `renewal_due = end_date - 30 days` and the
renewal-status conditional, then timestamps and the generated `_id`.  (A
pydantic `date` field is never a `str`, so the `isinstance` branch at line
284 is dead on this path.) -/
def agreement_insert_doc (payload : Agreement) (today now : Int)
    (newId : String) : Doc :=
  let data := payload.toDoc
  let data :=
    match payload.end_date with
    | none => data
    | some endDate =>
      let data := setField data "renewal_due" (Val.dat (endDate - 30))
      if endDate < today then
        setField data "renewal_status" (Val.str "Expired")
      else if endDate - 30 ≤ today ∧ today ≤ endDate then
        setField data "renewal_status" (Val.str "Due")
      else setField data "renewal_status" (Val.str "Active")
  let data := setField data "created_at" (Val.dat now)
  let data := setField data "updated_at" (Val.dat now)
  setField data "_id" (Val.str newId)

def create_agreement (s : DB) (payload : Agreement) (newId : String)
    (now today : Int) : DB × Except ApiError String :=
  match resolveRef s.customer payload.customer_id "Customer not found"
      "Invalid customer_id" with
  | Except.error e => (s, Except.error e)
  | Except.ok _ =>
    ({ s with
        agreement := s.agreement ++ [agreement_insert_doc payload today now newId] },
     Except.ok newId)

/-! Endpoint: GET /api/agreements. -/

def list_agreement_entry (d : Doc) (today : Int) : Doc :=
  match readEndDate (getField d "end_date") with
  | none => d
  | some endDate =>
    let renewalDue := endDate - 30
    let d1 := setField d "renewal_due" (Val.dat renewalDue)
    if endDate < today then
      setField d1 "renewal_status" (Val.str "Expired")
    else if renewalDue ≤ today ∧ today ≤ endDate then
      setField d1 "renewal_status" (Val.str "Due")
    else setField d1 "renewal_status" (Val.str "Active")

def list_agreements (s : DB) (customer_id : Option String)
    (due_within_days : Option Int) (today : Int) : List Doc :=
  let docs := match customer_id with
    | some c =>
      s.agreement.filter
        (fun d => getField d "customer_id" == some (Val.str c))
    | none => s.agreement
  docs.filterMap (fun d =>
    let d1 := list_agreement_entry d today
    match due_within_days, readEndDate (getField d "end_date") with
    | some days, some e =>
      if today ≤ e ∧ e ≤ today + days then some d1 else none
    | _, _ => some d1)

/-! Renewal notifier (`check_and_notify_agreement` /
`manual_check_renewals`).  `send_email_stub` is the fire-and-forget notifier
collaborator; the embedded check returns the dispatched message, `none` when
nothing is sent.  The function reads the store and writes nothing, so no
deduplication state exists anywhere. -/

structure Notification where
  recipients : List String
  subject : String
  body : String
deriving DecidableEq

def check_and_notify_agreement (s : DB) (agreementId : String) (today : Int)
    (adminEmail : String) : Option Notification :=
  if wellFormedId agreementId then
    match findById s.agreement agreementId with
    | none => none
    | some ag =>
      match readEndDate (getField ag "end_date") with
      | none => none
      | some endDate =>
        if endDate - 30 ≤ today ∧ today ≤ endDate then
          some { recipients := [adminEmail]
               , subject := "Renewal due for " ++ showField ag "name" ++
                   " (" ++ showField ag "type" ++ ")"
               , body := "Agreement " ++ showField ag "name" ++
                   " for customer " ++ showField ag "customer_id" ++
                   " is due on " ++ toString endDate ++
                   ".\nPlease review and renew." }
        else none
  else none

/-- POST /api/agreements/check-renewals schedules one check per stored
agreement. -/
def manual_check_renewals (s : DB) (today : Int) (adminEmail : String) :
    List (Option Notification) :=
  s.agreement.map (fun d => check_and_notify_agreement s (idString d) today adminEmail)

/-! Endpoint: POST /api/upload/{entity}/{entity_id}/{field}. -/

/-- `str.lower()` on the ASCII entity names this endpoint deals with. -/
def lowerChar (c : Char) : Char :=
  if c.isUpper then Char.ofNat (c.toNat + 32) else c

def lowerStr (s : String) : String := String.mk (s.toList.map lowerChar)

/-- `save_upload`: writes the blob and returns the public URL
`/uploads/{entity}_{entity_id}_{field}_{ts}_{filename}`. -/
def save_upload (entity entityId field ts filename : String) : String :=
  "/uploads/" ++ entity ++ "_" ++ entityId ++ "_" ++ field ++ "_" ++ ts ++
    "_" ++ filename

/-- The upload handler.  The blob is written (appended to `uploads`) before
the document update is attempted; inside the `try:` only `ObjectId(entity_id)`
can raise, and an `update_one` that matches nothing modifies nothing. -/
def upload_document (s : DB) (entity entityId field ts filename : String)
    (now : Int) : DB × Except ApiError String :=
  let e := lowerStr entity
  if e == "customer" || e == "po" || e == "invoice" || e == "agreement" then
    let url := save_upload e entityId field ts filename
    let s1 := { s with uploads := s.uploads ++ [url] }
    if wellFormedId entityId then
      let p := fun d => getField d "_id" == some (Val.str entityId)
      let f := fun d =>
        setField (setField d field (Val.str url)) "updated_at" (Val.dat now)
      let s2 :=
        if e == "customer" then { s1 with customer := updateOne s1.customer p f }
        else if e == "po" then { s1 with po := updateOne s1.po p f }
        else if e == "invoice" then { s1 with invoice := updateOne s1.invoice p f }
        else { s1 with agreement := updateOne s1.agreement p f }
      (s2, Except.ok url)
    else (s1, Except.error ⟨400, "Invalid entity id or field"⟩)
  else (s, Except.error ⟨400, "Unsupported entity"⟩)

/-! Endpoint: GET /api/dashboard-summary (the invoice-bucket part that the
claims are about). -/

/-- `invoice.count_documents({"payment_status": st})`: counts by the
*persisted* payment_status field. -/
def dashboard_status_count (s : DB) (st : String) : Nat :=
  (s.invoice.filter
    (fun d => getField d "payment_status" == some (Val.str st))).length

/-- Counting the stored invoices by the status *recomputed* from the stored
amounts, the derivation that GET /api/invoices applies. -/
def derived_status_count (s : DB) (st : String) : Nat :=
  (s.invoice.filter
    (fun d =>
      paymentStatusOf (getNum d "amount") (getNum d "amount_received") == st)).length

/-- `outstanding = Σ max(0, amount - amount_received)` over all invoices. -/
def dashboard_outstanding (s : DB) : ℚ :=
  (s.invoice.map
    (fun d => max 0 (getNum d "amount" - getNum d "amount_received"))).sum

/-! The state-mutating operations of the API, for frame properties.  The GET
endpoints and the renewal check read the store and write nothing, so only
these can change a stored document. -/

inductive Op where
  | createCustomer (p : Customer) (newId : String) (now : Int)
  | createPo (p : Po) (newId : String) (now : Int)
  | createInvoice (p : Invoice) (newId : String) (now : Int)
  | createAgreement (p : Agreement) (newId : String) (now today : Int)
  | createPayment (p : Payment) (newId : String) (now : Int)
  | uploadDoc (entity entityId field ts filename : String) (now : Int)

def Op.step (s : DB) : Op → DB
  | Op.createCustomer p newId now => (create_customer s p newId now).1
  | Op.createPo p newId now => (create_po s p newId now).1
  | Op.createInvoice p newId now => (create_invoice s p newId now).1
  | Op.createAgreement p newId now today =>
      (create_agreement s p newId now today).1
  | Op.createPayment p newId now => (create_payment s p newId now).1
  | Op.uploadDoc entity entityId field ts filename now =>
      (upload_document s entity entityId field ts filename now).1

/-- The operations that can rewrite the `amount_received` field of a stored
invoice: payment creation (by design), and a document upload that targets the
invoice collection with the path parameter `field` literally equal to
`amount_received` (nothing validates the field name). -/
def opTouchesReceived : Op → Bool
  | Op.createPayment _ _ _ => true
  | Op.uploadDoc entity _ field _ _ _ =>
      lowerStr entity == "invoice" && field == "amount_received"
  | _ => false

/-! Basic lemmas about the document and collection primitives. -/

theorem getField_setField_self (d : Doc) (k : String) (v : Val) :
    getField (setField d k v) k = some v := by
  simp [getField, setField, List.find?_cons_of_pos]

theorem getField_setField_ne (d : Doc) (k k' : String) (v : Val)
    (h : k' ≠ k) : getField (setField d k v) k' = getField d k' := by
  unfold getField setField
  rw [List.find?_cons_of_neg]
  simp [beq_iff_eq]
  exact fun hk => h hk.symm

theorem getNum_setField_ne (d : Doc) (k k' : String) (v : Val)
    (h : k' ≠ k) : getNum (setField d k v) k' = getNum d k' := by
  simp [getNum, getField_setField_ne d k k' v h]

theorem idString_setField_ne (d : Doc) (k : String) (v : Val)
    (h : "_id" ≠ k) : idString (setField d k v) = idString d := by
  simp [idString, getField_setField_ne d k "_id" v h]

theorem find?_updateOne (col : List Doc) (p : Doc → Bool) (f : Doc → Doc)
    (h : ∀ d, p (f d) = p d) :
    (updateOne col p f).find? p = (col.find? p).map f := by
  induction col with
  | nil => rfl
  | cons d rest ih =>
    by_cases hd : p d
    · rw [updateOne, if_pos hd, List.find?_cons_of_pos _ ((h d).trans hd),
        List.find?_cons_of_pos _ hd]
      rfl
    · rw [updateOne, if_neg hd,
        List.find?_cons_of_neg _ (by simp [hd]),
        List.find?_cons_of_neg _ (by simp [hd]), ih]

theorem map_updateOne (col : List Doc) (p : Doc → Bool) (f : Doc → Doc)
    (g : Doc → α) (h : ∀ d, g (f d) = g d) :
    (updateOne col p f).map g = col.map g := by
  induction col with
  | nil => rfl
  | cons d rest ih =>
    by_cases hd : p d
    · rw [updateOne, if_pos hd]
      simp [h d]
    · rw [updateOne, if_neg hd]
      simp [ih]

theorem updateOne_eq_self (col : List Doc) (p : Doc → Bool) (f : Doc → Doc)
    (h : ∀ d ∈ col, p d = false) : updateOne col p f = col := by
  induction col with
  | nil => rfl
  | cons d rest ih =>
    rw [updateOne, if_neg (by simp [h d (List.mem_cons_self d rest)])]
    rw [ih (fun x hx => h x (List.mem_cons_of_mem d hx))]

theorem findById_id_field (col : List Doc) (i : String) (d : Doc)
    (h : findById col i = some d) :
    getField d "_id" = some (Val.str i) := by
  have := List.find?_some h
  simpa [beq_iff_eq] using this

theorem resolveRef_ok (col : List Doc) (refId nf inv : String) (d : Doc)
    (h : resolveRef col refId nf inv = Except.ok d) :
    findById col refId = some d := by
  unfold resolveRef refLookup at h
  by_cases hw : wellFormedId refId
  · rw [if_pos hw] at h
    cases hf : findById col refId with
    | none => rw [hf] at h; exact absurd h (by simp)
    | some x => rw [hf] at h; simp at h; rw [h]
  · rw [if_neg hw] at h
    exact absurd h (by simp)

theorem paymentSum_append (a b : List Doc) (i : String) :
    paymentSum (a ++ b) i = paymentSum a i + paymentSum b i := by
  simp [paymentSum, List.filter_append]

theorem paymentSum_perm (a b : List Doc) (i : String) (h : a.Perm b) :
    paymentSum a i = paymentSum b i :=
  List.Perm.sum_eq (List.Perm.map _ (List.Perm.filter _ h))

theorem billedAmount_invoice_append (s : DB) (extra : List Doc)
    (pid : String) :
    billedAmount { s with invoice := s.invoice ++ extra } pid =
      billedAmount s pid +
        ((extra.filter
            (fun i => getField i "po_id" == some (Val.str pid))).map
          (fun i => getNum i "amount")).sum := by
  simp [billedAmount, List.filter_append]

/-! Characterisation of the invoice status derivation. -/

theorem paymentStatusOf_eq_pending (amt received : ℚ) :
    (paymentStatusOf amt received = "Pending") ↔ received ≤ 0 := by
  unfold paymentStatusOf
  split_ifs with h1 h2
  · simpa using h1
  · exact iff_of_false (by decide) h1
  · exact iff_of_false (by decide) h1

theorem paymentStatusOf_eq_partial (amt received : ℚ) :
    (paymentStatusOf amt received = "Partial") ↔
      (0 < received ∧ received < amt) := by
  unfold paymentStatusOf
  split_ifs with h1 h2
  · exact iff_of_false (by decide) (fun hc => absurd h1 (not_le.mpr hc.1))
  · exact iff_of_true rfl ⟨not_le.mp h1, h2⟩
  · exact iff_of_false (by decide) (fun hc => h2 hc.2)

theorem paymentStatusOf_eq_paid (amt received : ℚ) :
    (paymentStatusOf amt received = "Paid") ↔
      (0 < received ∧ amt ≤ received) := by
  unfold paymentStatusOf
  split_ifs with h1 h2
  · exact iff_of_false (by decide) (fun hc => absurd h1 (not_le.mpr hc.1))
  · exact iff_of_false (by decide) (fun hc => absurd h2 (not_lt.mpr hc.2))
  · exact iff_of_true rfl ⟨not_le.mp h1, not_lt.mp h2⟩

theorem list_invoice_entry_status (d : Doc) :
    getField (list_invoice_entry d) "payment_status" =
      some (Val.str
        (paymentStatusOf (getNum d "amount") (getNum d "amount_received"))) := by
  simp only [list_invoice_entry]
  rw [getField_setField_self]

theorem list_invoice_entry_balance (d : Doc) :
    getField (list_invoice_entry d) "balance_amount" =
      some (Val.num
        (max 0 (getNum d "amount" - getNum d "amount_received"))) := by
  simp only [list_invoice_entry]
  rw [getField_setField_ne _ _ _ _ (by decide : "balance_amount" ≠ "payment_status"),
    getField_setField_self]

theorem list_invoice_entry_amt (d : Doc) :
    getNum (list_invoice_entry d) "amount" = getNum d "amount" := by
  simp only [list_invoice_entry]
  rw [getNum_setField_ne _ _ _ _ (by decide : "amount" ≠ "payment_status"),
    getNum_setField_ne _ _ _ _ (by decide : "amount" ≠ "balance_amount")]

theorem list_invoice_entry_received (d : Doc) :
    getNum (list_invoice_entry d) "amount_received" =
      getNum d "amount_received" := by
  simp only [list_invoice_entry]
  rw [getNum_setField_ne _ _ _ _ (by decide : "amount_received" ≠ "payment_status"),
    getNum_setField_ne _ _ _ _ (by decide : "amount_received" ≠ "balance_amount")]

theorem mem_list_invoices (s : DB) (a b : Option String) (d : Doc)
    (hd : d ∈ list_invoices s a b) : ∃ d0, d = list_invoice_entry d0 := by
  unfold list_invoices at hd
  cases a <;> cases b <;> simp at hd <;>
    · obtain ⟨d0, -, rfl⟩ := hd
      exact ⟨d0, rfl⟩

/-- C1 (amended): for every invoice reported by GET /api/invoices with
`0 ≤ amount_received`, the read path reports payment_status Pending iff
amount_received ≤ 0, Partial iff 0 < amount_received < amount, and Paid iff
amount_received ≥ amount *and* amount_received > 0 (the Pending branch takes
precedence, so when amount = amount_received = 0 the status is Pending, not
Paid); and balance_amount = max(0, amount − amount_received) ≥ 0. -/
theorem c1_invoice_read_path (s : DB) (po_id customer_id : Option String)
    (d : Doc) (hd : d ∈ list_invoices s po_id customer_id)
    (hrec : 0 ≤ getNum d "amount_received") :
    ((getField d "payment_status" = some (Val.str "Pending")) ↔
      getNum d "amount_received" ≤ 0) ∧
    ((getField d "payment_status" = some (Val.str "Partial")) ↔
      (0 < getNum d "amount_received" ∧
        getNum d "amount_received" < getNum d "amount")) ∧
    ((getField d "payment_status" = some (Val.str "Paid")) ↔
      (0 < getNum d "amount_received" ∧
        getNum d "amount" ≤ getNum d "amount_received")) ∧
    getField d "balance_amount" =
      some (Val.num
        (max 0 (getNum d "amount" - getNum d "amount_received"))) ∧
    0 ≤ max 0 (getNum d "amount" - getNum d "amount_received") := by
  obtain ⟨d0, rfl⟩ := mem_list_invoices s po_id customer_id d hd
  rw [list_invoice_entry_status, list_invoice_entry_balance,
    list_invoice_entry_amt, list_invoice_entry_received]
  simp only [Option.some.injEq, Val.str.injEq, Val.num.injEq]
  exact ⟨paymentStatusOf_eq_pending _ _, paymentStatusOf_eq_partial _ _,
    paymentStatusOf_eq_paid _ _, trivial, le_max_left 0 _⟩

def c1Doc : Doc :=
  [("_id", Val.str "ffffffffffffffffffffffff"), ("amount", Val.num 0),
   ("amount_received", Val.num 0)]

def c1DB : DB := { invoice := [c1Doc] }

/-- C1 counterexample: a stored invoice with amount = amount_received = 0
(`amount ≥ 0` and default `amount_received = 0` are both legal payloads) is
reported as Pending by GET /api/invoices although amount_received ≥ amount,
so the claimed "Paid iff amount_received ≥ amount" is false on the code. -/
theorem c1_zero_invoice_reported_pending :
    list_invoices c1DB none none = [list_invoice_entry c1Doc] ∧
    getNum (list_invoice_entry c1Doc) "amount" ≤
      getNum (list_invoice_entry c1Doc) "amount_received" ∧
    getField (list_invoice_entry c1Doc) "payment_status" =
      some (Val.str "Pending") ∧
    ¬ getField (list_invoice_entry c1Doc) "payment_status" =
      some (Val.str "Paid") := by
  refine ⟨rfl, by decide, by decide, by decide⟩

def w1Doc : Doc :=
  [("_id", Val.str "eeeeeeeeeeeeeeeeeeeeeeee"), ("amount", Val.num 100),
   ("amount_received", Val.num 30)]

def w1DB : DB := { invoice := [w1Doc] }

/-- C1 witness: the amended theorem instantiated on a concrete store holding
one invoice with amount 100 and amount_received 30. -/
theorem c1_invoice_read_path_witness :
    ((getField (list_invoice_entry w1Doc) "payment_status" =
        some (Val.str "Pending")) ↔
      getNum (list_invoice_entry w1Doc) "amount_received" ≤ 0) ∧
    ((getField (list_invoice_entry w1Doc) "payment_status" =
        some (Val.str "Partial")) ↔
      (0 < getNum (list_invoice_entry w1Doc) "amount_received" ∧
        getNum (list_invoice_entry w1Doc) "amount_received" <
          getNum (list_invoice_entry w1Doc) "amount")) ∧
    ((getField (list_invoice_entry w1Doc) "payment_status" =
        some (Val.str "Paid")) ↔
      (0 < getNum (list_invoice_entry w1Doc) "amount_received" ∧
        getNum (list_invoice_entry w1Doc) "amount" ≤
          getNum (list_invoice_entry w1Doc) "amount_received")) ∧
    getField (list_invoice_entry w1Doc) "balance_amount" =
      some (Val.num (max 0 (getNum (list_invoice_entry w1Doc) "amount" -
        getNum (list_invoice_entry w1Doc) "amount_received"))) ∧
    0 ≤ max 0 (getNum (list_invoice_entry w1Doc) "amount" -
      getNum (list_invoice_entry w1Doc) "amount_received") :=
  c1_invoice_read_path w1DB none none (list_invoice_entry w1Doc)
    (List.mem_singleton_self _) (by decide)

/-! GET /api/pos: billed amount and balance. -/

theorem list_po_entry_billed (s : DB) (p : Doc) :
    getField (list_po_entry s p) "billed_amount" =
      some (Val.num (billedAmount s (idString p))) := by
  simp only [list_po_entry]
  rw [getField_setField_ne _ _ _ _ (by decide : "billed_amount" ≠ "po_balance"),
    getField_setField_self]

theorem list_po_entry_po_balance (s : DB) (p : Doc) :
    getField (list_po_entry s p) "po_balance" =
      some (Val.num
        (max 0 (getNum p "amount" - billedAmount s (idString p)))) := by
  simp only [list_po_entry]
  rw [getField_setField_self,
    getNum_setField_ne _ _ _ _ (by decide : "amount" ≠ "billed_amount")]

theorem idString_list_po_entry (s : DB) (p : Doc) :
    idString (list_po_entry s p) = idString p := by
  simp only [list_po_entry]
  rw [idString_setField_ne _ _ _ (by decide : "_id" ≠ "po_balance"),
    idString_setField_ne _ _ _ (by decide : "_id" ≠ "billed_amount")]

theorem getNum_list_po_entry_amount (s : DB) (p : Doc) :
    getNum (list_po_entry s p) "amount" = getNum p "amount" := by
  simp only [list_po_entry]
  rw [getNum_setField_ne _ _ _ _ (by decide : "amount" ≠ "po_balance"),
    getNum_setField_ne _ _ _ _ (by decide : "amount" ≠ "billed_amount")]

theorem mem_list_pos (s : DB) (a : Option String) (d : Doc)
    (hd : d ∈ list_pos s a) : ∃ p, d = list_po_entry s p := by
  unfold list_pos at hd
  cases a <;> simp at hd <;>
    · obtain ⟨p, -, rfl⟩ := hd
      exact ⟨p, rfl⟩

theorem getNum_invoice_insert_doc_amount (p : Invoice) (now : Int)
    (nid : String) : getNum (invoice_insert_doc p now nid) "amount" = p.amount := rfl

/-- Creating one invoice can only increase a PO's billed amount (pydantic
enforces `amount ≥ 0` at the boundary, the `hamt` hypothesis). -/
theorem billedAmount_le_create_invoice (s : DB) (inv : Invoice)
    (nid : String) (now : Int) (pid : String) (hamt : 0 ≤ inv.amount) :
    billedAmount s pid ≤ billedAmount (create_invoice s inv nid now).1 pid := by
  unfold create_invoice
  cases h1 : resolveRef s.po inv.po_id "PO not found" "Invalid po_id" with
  | error e => exact le_rfl
  | ok x =>
    cases h2 : resolveRef s.customer inv.customer_id "Customer not found"
        "Invalid customer_id" with
    | error e => exact le_rfl
    | ok y =>
      show billedAmount s pid ≤
        billedAmount { s with invoice := s.invoice ++ [invoice_insert_doc inv now nid] } pid
      rw [billedAmount_invoice_append]
      refine le_add_of_nonneg_right ?_
      by_cases hc :
          getField (invoice_insert_doc inv now nid) "po_id" ==
            some (Val.str pid)
      · simp [List.filter, hc, getNum_invoice_insert_doc_amount, hamt]
      · simp [List.filter, hc]

/-- C3: every PO reported by GET /api/pos carries
billed_amount = Σ invoice.amount over the invoices holding its id (invoiced,
not collected, amount) and po_balance = max(0, amount − billed_amount); the
balance is never negative, and creating a further invoice (of non-negative
amount) can only grow billed_amount and hence only shrink po_balance. -/
theorem c3_po_read_billing (s : DB) (customer_id : Option String) (d : Doc)
    (hd : d ∈ list_pos s customer_id)
    (inv : Invoice) (nid : String) (now : Int) (hamt : 0 ≤ inv.amount) :
    getField d "billed_amount" =
      some (Val.num (billedAmount s (idString d))) ∧
    getField d "po_balance" =
      some (Val.num
        (max 0 (getNum d "amount" - billedAmount s (idString d)))) ∧
    0 ≤ max 0 (getNum d "amount" - billedAmount s (idString d)) ∧
    billedAmount s (idString d) ≤
      billedAmount (create_invoice s inv nid now).1 (idString d) ∧
    max 0 (getNum d "amount" -
        billedAmount (create_invoice s inv nid now).1 (idString d)) ≤
      max 0 (getNum d "amount" - billedAmount s (idString d)) := by
  obtain ⟨p, rfl⟩ := mem_list_pos s customer_id d hd
  rw [list_po_entry_billed, list_po_entry_po_balance, idString_list_po_entry,
    getNum_list_po_entry_amount]
  have hb := billedAmount_le_create_invoice s inv nid now (idString p) hamt
  exact ⟨rfl, rfl, le_max_left _ _, hb,
    max_le_max le_rfl (sub_le_sub_left hb _)⟩

def w3Cust : Doc := [("_id", Val.str "bbbbbbbbbbbbbbbbbbbbbbbb")]

def w3Po : Doc :=
  [("_id", Val.str "cccccccccccccccccccccccc"),
   ("customer_id", Val.str "bbbbbbbbbbbbbbbbbbbbbbbb"),
   ("amount", Val.num 1000)]

def w3Inv : Doc :=
  [("_id", Val.str "dddddddddddddddddddddddd"),
   ("po_id", Val.str "cccccccccccccccccccccccc"),
   ("amount", Val.num 1200)]

def w3DB : DB := { customer := [w3Cust], po := [w3Po], invoice := [w3Inv] }

def w3New : Invoice :=
  { invoice_number := "INV-2", po_id := "cccccccccccccccccccccccc",
    customer_id := "bbbbbbbbbbbbbbbbbbbbbbbb", amount := 50 }

/-- C3 witness: a PO of amount 1000 already over-billed by a 1200 invoice;
its read-time balance is floored at zero and adding one more invoice keeps
billed_amount non-decreasing. -/
theorem c3_po_read_billing_witness :
    getField (list_po_entry w3DB w3Po) "billed_amount" =
      some (Val.num (billedAmount w3DB (idString (list_po_entry w3DB w3Po)))) ∧
    0 ≤ max 0 (getNum (list_po_entry w3DB w3Po) "amount" -
      billedAmount w3DB (idString (list_po_entry w3DB w3Po))) ∧
    billedAmount w3DB (idString (list_po_entry w3DB w3Po)) ≤
      billedAmount (create_invoice w3DB w3New "eeeeeeeeeeeeeeeeeeeeeeee" 0).1
        (idString (list_po_entry w3DB w3Po)) := by
  have h := c3_po_read_billing w3DB none (list_po_entry w3DB w3Po)
    (List.mem_singleton_self _) w3New "eeeeeeeeeeeeeeeeeeeeeeee" 0
    (by norm_num [w3New])
  exact ⟨h.1, h.2.2.1, h.2.2.2.1⟩

/-! Agreement renewal characterisation. -/

theorem renewalStatusOf_eq_expired (e t : Int) :
    (renewalStatusOf e t = "Expired") ↔ e < t := by
  unfold renewalStatusOf
  split_ifs with h1 h2
  · exact iff_of_true rfl h1
  · exact iff_of_false (by decide) h1
  · exact iff_of_false (by decide) h1

theorem renewalStatusOf_eq_due (e t : Int) :
    (renewalStatusOf e t = "Due") ↔ (e - 30 ≤ t ∧ t ≤ e) := by
  unfold renewalStatusOf
  split_ifs with h1 h2
  · exact iff_of_false (by decide) (fun hc => absurd h1 (not_lt.mpr hc.2))
  · exact iff_of_true rfl h2
  · exact iff_of_false (by decide) h2

theorem renewalStatusOf_eq_active (e t : Int) :
    (renewalStatusOf e t = "Active") ↔
      (¬ e < t ∧ ¬ (e - 30 ≤ t ∧ t ≤ e)) := by
  unfold renewalStatusOf
  split_ifs with h1 h2
  · exact iff_of_false (by decide) (fun hc => hc.1 h1)
  · exact iff_of_false (by decide) (fun hc => hc.2 h2)
  · exact iff_of_true rfl ⟨h1, h2⟩

theorem agreement_insert_doc_some_eq (p : Agreement) (today now : Int)
    (nid : String) (e : Int) (he : p.end_date = some e) :
    agreement_insert_doc p today now nid =
      setField (setField (setField (setField (setField p.toDoc
        "renewal_due" (Val.dat (e - 30)))
        "renewal_status" (Val.str (renewalStatusOf e today)))
        "created_at" (Val.dat now)) "updated_at" (Val.dat now))
        "_id" (Val.str nid) := by
  simp only [agreement_insert_doc, renewalStatusOf, he]
  split_ifs <;> rfl

theorem agreement_insert_doc_none_eq (p : Agreement) (today now : Int)
    (nid : String) (he : p.end_date = none) :
    agreement_insert_doc p today now nid =
      setField (setField (setField p.toDoc "created_at" (Val.dat now))
        "updated_at" (Val.dat now)) "_id" (Val.str nid) := by
  simp only [agreement_insert_doc, he]

theorem list_agreement_entry_some_eq (d : Doc) (today e : Int)
    (he : readEndDate (getField d "end_date") = some e) :
    list_agreement_entry d today =
      setField (setField d "renewal_due" (Val.dat (e - 30)))
        "renewal_status" (Val.str (renewalStatusOf e today)) := by
  simp only [list_agreement_entry, renewalStatusOf, he]
  split_ifs <;> rfl

theorem list_agreement_entry_none (d : Doc) (today : Int)
    (he : readEndDate (getField d "end_date") = none) :
    list_agreement_entry d today = d := by
  simp only [list_agreement_entry, he]

theorem mem_list_agreements (s : DB) (cid : Option String)
    (dwd : Option Int) (today : Int) (x : Doc)
    (hx : x ∈ list_agreements s cid dwd today) :
    ∃ d0, x = list_agreement_entry d0 today := by
  unfold list_agreements at hx
  cases cid <;> simp only [List.mem_filterMap] at hx <;>
  · obtain ⟨a, -, hfa⟩ := hx
    refine ⟨a, ?_⟩
    cases dwd with
    | none => simp at hfa; exact hfa.symm
    | some days =>
      cases hre : readEndDate (getField a "end_date") with
      | none => rw [hre] at hfa; simp at hfa; exact hfa.symm
      | some e =>
        rw [hre] at hfa
        simp at hfa
        exact hfa.2.symm

/-- C4 (amended): at creation and on read the renewal computation is the
same pure function of (end_date, today): renewal_due = end_date − 30 days,
renewal_status Expired iff today > end_date, Due iff
end_date − 30 ≤ today ≤ end_date, Active otherwise.  When end_date is
absent the renewal computation is skipped: the read path returns the stored
document unchanged, and creation stores the payload's own renewal_due /
renewal_status values — null and "Active" by schema default — rather than
leaving both fields absent/null as the claim states. -/
theorem c4_agreement_renewal (p : Agreement) (nid : String) (now today : Int)
    (d : Doc) (e : Int) (s : DB) (cid : Option String) (dwd : Option Int) :
    ((renewalStatusOf e today = "Expired") ↔ e < today) ∧
    ((renewalStatusOf e today = "Due") ↔
      (e - 30 ≤ today ∧ today ≤ e)) ∧
    ((renewalStatusOf e today = "Active") ↔
      (¬ e < today ∧ ¬ (e - 30 ≤ today ∧ today ≤ e))) ∧
    (p.end_date = some e →
      getField (agreement_insert_doc p today now nid) "renewal_due" =
        some (Val.dat (e - 30)) ∧
      getField (agreement_insert_doc p today now nid) "renewal_status" =
        some (Val.str (renewalStatusOf e today))) ∧
    (readEndDate (getField d "end_date") = some e →
      getField (list_agreement_entry d today) "renewal_due" =
        some (Val.dat (e - 30)) ∧
      getField (list_agreement_entry d today) "renewal_status" =
        some (Val.str (renewalStatusOf e today))) ∧
    (p.end_date = none →
      getField (agreement_insert_doc p today now nid) "renewal_due" =
        some (optDat p.renewal_due) ∧
      getField (agreement_insert_doc p today now nid) "renewal_status" =
        some (Val.str p.renewal_status)) ∧
    (readEndDate (getField d "end_date") = none →
      list_agreement_entry d today = d) ∧
    (∀ x ∈ list_agreements s cid dwd today,
      ∃ d0, x = list_agreement_entry d0 today) := by
  refine ⟨renewalStatusOf_eq_expired e today, renewalStatusOf_eq_due e today,
    renewalStatusOf_eq_active e today, ?_, ?_, ?_,
    list_agreement_entry_none d today,
    fun x hx => mem_list_agreements s cid dwd today x hx⟩
  · intro he
    rw [agreement_insert_doc_some_eq p today now nid e he]
    constructor
    · rw [getField_setField_ne _ _ _ _ (by decide : "renewal_due" ≠ "_id"),
        getField_setField_ne _ _ _ _ (by decide : "renewal_due" ≠ "updated_at"),
        getField_setField_ne _ _ _ _ (by decide : "renewal_due" ≠ "created_at"),
        getField_setField_ne _ _ _ _ (by decide : "renewal_due" ≠ "renewal_status"),
        getField_setField_self]
    · rw [getField_setField_ne _ _ _ _ (by decide : "renewal_status" ≠ "_id"),
        getField_setField_ne _ _ _ _ (by decide : "renewal_status" ≠ "updated_at"),
        getField_setField_ne _ _ _ _ (by decide : "renewal_status" ≠ "created_at"),
        getField_setField_self]
  · intro he
    rw [list_agreement_entry_some_eq d today e he]
    constructor
    · rw [getField_setField_ne _ _ _ _ (by decide : "renewal_due" ≠ "renewal_status"),
        getField_setField_self]
    · rw [getField_setField_self]
  · intro he
    rw [agreement_insert_doc_none_eq p today now nid he]
    constructor
    · rw [getField_setField_ne _ _ _ _ (by decide : "renewal_due" ≠ "_id"),
        getField_setField_ne _ _ _ _ (by decide : "renewal_due" ≠ "updated_at"),
        getField_setField_ne _ _ _ _ (by decide : "renewal_due" ≠ "created_at")]
      rfl
    · rw [getField_setField_ne _ _ _ _ (by decide : "renewal_status" ≠ "_id"),
        getField_setField_ne _ _ _ _ (by decide : "renewal_status" ≠ "updated_at"),
        getField_setField_ne _ _ _ _ (by decide : "renewal_status" ≠ "created_at")]
      rfl

def c4Cust : Doc := [("_id", Val.str "abababababababababababab")]

def c4DB : DB := { customer := [c4Cust] }

def c4Payload : Agreement :=
  { name := "NDA-1", customer_id := "abababababababababababab" }

/-- C4 counterexample: POST /api/agreements without an end_date persists
renewal_status = "Active" (the schema default carried through model_dump),
not an absent/null field, refuting "renewal_due and renewal_status remain
absent/null"; renewal_due does stay null. -/
theorem c4_absent_end_date_not_null :
    c4Payload.end_date = none ∧
    (create_agreement c4DB c4Payload "cdcdcdcdcdcdcdcdcdcdcdcd" 0 0).1.agreement =
      [agreement_insert_doc c4Payload 0 0 "cdcdcdcdcdcdcdcdcdcdcdcd"] ∧
    getField (agreement_insert_doc c4Payload 0 0 "cdcdcdcdcdcdcdcdcdcdcdcd")
      "renewal_status" = some (Val.str "Active") ∧
    some (Val.str "Active") ≠ some Val.vnone ∧
    ¬ getField (agreement_insert_doc c4Payload 0 0 "cdcdcdcdcdcdcdcdcdcdcdcd")
        "renewal_status" = none := by
  exact ⟨rfl, rfl, rfl, by decide, by decide⟩

def w4P : Agreement :=
  { name := "MSA", customer_id := "abababababababababababab",
    end_date := some 100 }

/-- C4 witness: an agreement ending on day 100 checked on day 80 (inside the
30-day window) gets renewal_status per `renewalStatusOf`, and the Due
characterisation holds there. -/
theorem c4_agreement_renewal_witness :
    getField (agreement_insert_doc w4P 80 0 "cdcdcdcdcdcdcdcdcdcdcdcd")
      "renewal_status" = some (Val.str (renewalStatusOf 100 80)) ∧
    ((renewalStatusOf 100 80 = "Due") ↔
      ((100 : Int) - 30 ≤ (80 : Int) ∧ (80 : Int) ≤ (100 : Int))) := by
  have h := c4_agreement_renewal w4P "cdcdcdcdcdcdcdcdcdcdcdcd" 0 80 [] 100
    dbEmpty none none
  exact ⟨(h.2.2.2.1 rfl).2, h.2.1⟩

/-! Reference-error handling. -/

def c5PoMissing : Po :=
  { po_number := "PO-7", customer_id := "aaaaaaaaaaaaaaaaaaaaaaaa",
    amount := 10 }

def c5PoMalformed : Po :=
  { po_number := "PO-7", customer_id := "not-a-valid-objectid",
    amount := 10 }

/-- C5: the two failure causes are distinct inside the `try:` body — a
well-formed id with no matching customer raises HTTPException(404,
"Customer not found") while a malformed id raises InvalidId — but
`except Exception:` catches the 404 as well and re-raises
HTTPException(400, "Invalid customer_id"), so POST /api/pos surfaces the
identical client error for both causes: the claimed two distinguishable
errors never reach the caller. -/
theorem c5_reference_errors_conflated :
    refLookup dbEmpty.customer "aaaaaaaaaaaaaaaaaaaaaaaa"
        "Customer not found" =
      Except.error (RefFailure.httpNotFound "Customer not found") ∧
    refLookup dbEmpty.customer "not-a-valid-objectid" "Customer not found" =
      Except.error RefFailure.invalidObjectId ∧
    create_po dbEmpty c5PoMissing "bbbbbbbbbbbbbbbbbbbbbbbb" 0 =
      (dbEmpty, Except.error ⟨400, "Invalid customer_id"⟩) ∧
    create_po dbEmpty c5PoMalformed "bbbbbbbbbbbbbbbbbbbbbbbb" 0 =
      (dbEmpty, Except.error ⟨400, "Invalid customer_id"⟩) := by
  exact ⟨rfl, rfl, rfl, rfl⟩

/-- C6: every creation endpoint resolves all of its declared references
before its `insert_one` (and, for payments, before the invoice update), so
whenever a reference check fails the handler raises first and the store is
returned unchanged: nothing is inserted and no document is mutated. -/
theorem c6_reference_error_leaves_store_unchanged (s : DB) (ppo : Po)
    (pinv : Invoice) (pag : Agreement) (ppay : Payment) (nid : String)
    (now today : Int) :
    (∀ e, (create_po s ppo nid now).2 = Except.error e →
      (create_po s ppo nid now).1 = s) ∧
    (∀ e, (create_invoice s pinv nid now).2 = Except.error e →
      (create_invoice s pinv nid now).1 = s) ∧
    (∀ e, (create_agreement s pag nid now today).2 = Except.error e →
      (create_agreement s pag nid now today).1 = s) ∧
    (∀ e, (create_payment s ppay nid now).2 = Except.error e →
      (create_payment s ppay nid now).1 = s) := by
  refine ⟨?_, ?_, ?_, ?_⟩
  · intro e
    unfold create_po
    cases resolveRef s.customer ppo.customer_id "Customer not found"
      "Invalid customer_id" <;> simp
  · intro e
    unfold create_invoice
    cases resolveRef s.po pinv.po_id "PO not found" "Invalid po_id" <;>
      cases resolveRef s.customer pinv.customer_id "Customer not found"
        "Invalid customer_id" <;> simp
  · intro e
    unfold create_agreement
    cases resolveRef s.customer pag.customer_id "Customer not found"
      "Invalid customer_id" <;> simp
  · intro e
    unfold create_payment
    cases resolveRef s.invoice ppay.invoice_id "Invoice not found"
      "Invalid invoice_id" <;>
      cases resolveRef s.customer ppay.customer_id "Customer not found"
        "Invalid customer_id" <;> simp

/-- C6 witness: failing reference checks on a concrete empty store leave it
exactly as it was. -/
theorem c6_reference_error_leaves_store_unchanged_witness :
    (create_po dbEmpty
      { po_number := "P1", customer_id := "zz", amount := 5 }
      "abcabcabcabcabcabcabcabc" 7).1 = dbEmpty ∧
    (create_payment dbEmpty
      { payment_id := "X", invoice_id := "zz", customer_id := "zz",
        amount := 5 }
      "abcabcabcabcabcabcabcabc" 7).1 = dbEmpty := by
  have h := c6_reference_error_leaves_store_unchanged dbEmpty
    { po_number := "P1", customer_id := "zz", amount := 5 }
    { invoice_number := "I1", po_id := "zz", customer_id := "zz",
      amount := 5 }
    { name := "A", customer_id := "zz" }
    { payment_id := "X", invoice_id := "zz", customer_id := "zz",
      amount := 5 }
    "abcabcabcabcabcabcabcabc" 7 0
  exact ⟨h.1 ⟨400, "Invalid customer_id"⟩ rfl,
    h.2.2.2 ⟨400, "Invalid invoice_id"⟩ rfl⟩

/-! Dashboard status buckets versus the read-time derivation. -/

/-- C7 (amended): GET /api/invoices always reports the payment_status
recomputed from the stored amounts, never the persisted value; but the
dashboard-summary buckets count by the *persisted* payment_status field
(`count_documents({"payment_status": ...})`), so its paid/partial/pending
counts agree with the recomputed bucketing only when every stored status
already equals the derivation. -/
theorem c7_read_recompute (s : DB) (a b : Option String) :
    (∀ d ∈ list_invoices s a b,
      getField d "payment_status" =
        some (Val.str (paymentStatusOf (getNum d "amount")
          (getNum d "amount_received")))) ∧
    ((∀ d ∈ s.invoice,
        getField d "payment_status" =
          some (Val.str (paymentStatusOf (getNum d "amount")
            (getNum d "amount_received")))) →
      ∀ st, dashboard_status_count s st = derived_status_count s st) := by
  constructor
  · intro d hd
    obtain ⟨d0, rfl⟩ := mem_list_invoices s a b d hd
    rw [list_invoice_entry_status, list_invoice_entry_amt,
      list_invoice_entry_received]
  · intro hcons st
    unfold dashboard_status_count derived_status_count
    congr 1
    apply List.filter_congr
    intro d hd
    rw [hcons d hd, Bool.eq_iff_iff]
    simp [beq_iff_eq]

def c7Doc : Doc :=
  [("_id", Val.str "ffffffffffffffffffffff00"), ("amount", Val.num 100),
   ("amount_received", Val.num 100), ("payment_status", Val.str "Pending")]

def c7DB : DB := { invoice := [c7Doc] }

/-- C7 counterexample: an invoice stored with amounts 100/100 but persisted
payment_status "Pending": the read path reports the recomputed "Paid", yet
the dashboard counts it in the Pending bucket and not in the Paid bucket —
the dashboard counts do *not* equal the recomputed bucketing. -/
theorem c7_dashboard_trusts_stored_status :
    getField (list_invoice_entry c7Doc) "payment_status" =
      some (Val.str "Paid") ∧
    dashboard_status_count c7DB "Paid" = 0 ∧
    derived_status_count c7DB "Paid" = 1 ∧
    dashboard_status_count c7DB "Pending" = 1 ∧
    derived_status_count c7DB "Pending" = 0 := by
  exact ⟨by decide, by decide, by decide, by decide, by decide⟩

def w7Doc : Doc :=
  [("_id", Val.str "ffffffffffffffffffffff11"), ("amount", Val.num 100),
   ("amount_received", Val.num 0), ("payment_status", Val.str "Pending")]

def w7DB : DB := { invoice := [w7Doc] }

/-- C7 witness: on a store whose only invoice has a consistent persisted
status, the dashboard bucket equals the recomputed bucket. -/
theorem c7_read_recompute_witness :
    dashboard_status_count w7DB "Paid" = derived_status_count w7DB "Paid" :=
  (c7_read_recompute w7DB none none).2
    (by
      intro d hd
      rcases List.mem_singleton.mp hd with rfl
      rfl) "Paid"

/-! Payment application: full re-aggregation of `amount_received`. -/

theorem findById_updateOne_set (col : List Doc) (i : String) (inv : Doc)
    (hfind : findById col i = some inv) (v1 v2 v3 : Val) :
    findById (updateOne col
        (fun d => getField d "_id" == getField inv "_id")
        (fun d => setField (setField (setField d "amount_received" v1)
          "payment_status" v2) "updated_at" v3)) i =
      some (setField (setField (setField inv "amount_received" v1)
        "payment_status" v2) "updated_at" v3) := by
  have hid := findById_id_field col i inv hfind
  rw [hid]
  unfold findById at hfind ⊢
  rw [find?_updateOne]
  · rw [hfind]
    rfl
  · intro d
    rw [getField_setField_ne _ _ _ _ (by decide : "_id" ≠ "updated_at"),
      getField_setField_ne _ _ _ _ (by decide : "_id" ≠ "payment_status"),
      getField_setField_ne _ _ _ _ (by decide : "_id" ≠ "amount_received")]

/-- What one successful POST /api/payments does: appends exactly the new
payment document, and rewrites the referenced invoice so that its stored
`amount_received` is the re-aggregated sum over *all* stored payments for
that invoice — the same number returned in the response together with the
status recomputed from it. -/
theorem create_payment_ok (s : DB) (p : Payment) (nid : String) (now : Int)
    (s' : DB) (r : PaymentResp)
    (h : create_payment s p nid now = (s', Except.ok r)) :
    s'.payment = s.payment ++ [payment_insert_doc p now nid] ∧
    r.invoice_amount_received = paymentSum s'.payment p.invoice_id ∧
    (∃ d, findById s'.invoice p.invoice_id = some d ∧
      getField d "amount_received" =
        some (Val.num (paymentSum s'.payment p.invoice_id)) ∧
      getField d "payment_status" = some (Val.str r.invoice_status)) := by
  unfold create_payment at h
  cases h1 : resolveRef s.invoice p.invoice_id "Invoice not found"
      "Invalid invoice_id" with
  | error e => rw [h1] at h; simp at h
  | ok inv =>
    rw [h1] at h
    cases h2 : resolveRef s.customer p.customer_id "Customer not found"
        "Invalid customer_id" with
    | error e => rw [h2] at h; simp at h
    | ok c =>
      rw [h2] at h
      injection h with hs hr
      injection hr with hr
      subst hs
      subst hr
      refine ⟨rfl, rfl, ?_⟩
      refine ⟨_, findById_updateOne_set s.invoice p.invoice_id inv
        (resolveRef_ok _ _ _ _ _ h1) _ _ _, ?_, ?_⟩
      · rw [getField_setField_ne _ _ _ _
            (by decide : "amount_received" ≠ "updated_at"),
          getField_setField_ne _ _ _ _
            (by decide : "amount_received" ≠ "payment_status"),
          getField_setField_self]
      · rw [getField_setField_ne _ _ _ _
            (by decide : "payment_status" ≠ "updated_at"),
          getField_setField_self]

theorem runPayments_payment_collection (s : DB)
    (l : List (Payment × String)) (now : Int) (s' : DB)
    (h : runPayments s l now = some s') :
    s'.payment = s.payment ++
      l.map (fun x => payment_insert_doc x.1 now x.2) := by
  induction l generalizing s with
  | nil =>
    simp [runPayments] at h
    subst h
    simp
  | cons x rest ih =>
    unfold runPayments at h
    cases hcp : create_payment s x.1 x.2 now with
    | mk s1 res =>
      rw [hcp] at h
      cases res with
      | error e => simp at h
      | ok r =>
        have h2 : runPayments s1 rest now = some s' := h
        have hs1 := (create_payment_ok s x.1 x.2 now s1 r hcp).1
        rw [ih s1 h2, hs1]
        simp

theorem runPayments_last_received (s : DB) (l : List (Payment × String))
    (now : Int) (s' : DB) (i : String)
    (hne : l ≠ []) (hall : ∀ x ∈ l, x.1.invoice_id = i)
    (h : runPayments s l now = some s') :
    ∃ d, findById s'.invoice i = some d ∧
      getField d "amount_received" =
        some (Val.num (paymentSum s'.payment i)) := by
  induction l generalizing s with
  | nil => exact absurd rfl hne
  | cons x rest ih =>
    have hx : x.1.invoice_id = i := hall x (List.mem_cons_self x rest)
    unfold runPayments at h
    cases hcp : create_payment s x.1 x.2 now with
    | mk s1 res =>
      rw [hcp] at h
      cases res with
      | error e => simp at h
      | ok r =>
        have h2 : runPayments s1 rest now = some s' := h
        cases rest with
        | nil =>
          have hs1 : s1 = s' := by simpa [runPayments] using h2
          subst hs1
          obtain ⟨-, -, d, hd1, hd2, -⟩ :=
            create_payment_ok s x.1 x.2 now s1 r hcp
          rw [hx] at hd1 hd2
          exact ⟨d, hd1, hd2⟩
        | cons y ys =>
          exact ih s1 (by simp)
            (fun z hz => hall z (List.mem_cons_of_mem x hz)) h2

/-- C2: after any (non-empty) sequence of successful POST /api/payments all
referencing one invoice, the invoice's stored amount_received equals the
sum of the amounts of all stored Payment documents referencing it; running
any permutation of the same sequence produces the same aggregate (the
re-aggregation is order-independent); and every individual response carries
exactly that new aggregate together with the status recomputed from it. -/
theorem c2_payment_reaggregation (s s' : DB) (i : String)
    (l : List (Payment × String)) (now : Int)
    (hne : l ≠ [])
    (hall : ∀ x ∈ l, x.1.invoice_id = i)
    (hrun : runPayments s l now = some s') :
    (∃ d, findById s'.invoice i = some d ∧
      getField d "amount_received" =
        some (Val.num (paymentSum s'.payment i))) ∧
    (∀ (l' : List (Payment × String)) (s'' : DB), l.Perm l' →
      runPayments s l' now = some s'' →
      paymentSum s''.payment i = paymentSum s'.payment i ∧
      ∃ d, findById s''.invoice i = some d ∧
        getField d "amount_received" =
          some (Val.num (paymentSum s'.payment i))) ∧
    (∀ (t u : DB) (p : Payment) (nid : String) (r : PaymentResp),
      p.invoice_id = i → create_payment t p nid now = (u, Except.ok r) →
      r.invoice_amount_received = paymentSum u.payment i ∧
      ∃ d, findById u.invoice i = some d ∧
        getField d "amount_received" =
          some (Val.num r.invoice_amount_received) ∧
        getField d "payment_status" = some (Val.str r.invoice_status)) := by
  refine ⟨runPayments_last_received s l now s' i hne hall hrun, ?_, ?_⟩
  · intro l' s'' hperm hrun'
    have hne' : l' ≠ [] := by
      intro hnil
      exact hne (List.Perm.eq_nil (hnil ▸ hperm))
    have hall' : ∀ x ∈ l', x.1.invoice_id = i := fun x hx =>
      hall x (hperm.mem_iff.mpr hx)
    have hsum : paymentSum s''.payment i = paymentSum s'.payment i := by
      rw [runPayments_payment_collection s l now s' hrun,
        runPayments_payment_collection s l' now s'' hrun',
        paymentSum_append, paymentSum_append,
        paymentSum_perm _ _ i (hperm.map _)]
    obtain ⟨d, hd1, hd2⟩ :=
      runPayments_last_received s l' now s'' i hne' hall' hrun'
    rw [hsum] at hd2
    exact ⟨hsum, d, hd1, hd2⟩
  · intro t u p nid r hp hcp
    obtain ⟨-, hr, d, hd1, hd2, hd3⟩ := create_payment_ok t p nid now u r hcp
    rw [hp] at hr hd1 hd2
    refine ⟨hr, d, hd1, ?_, hd3⟩
    rw [hr]
    exact hd2

def w2Cust : Doc := [("_id", Val.str "bbbbbbbbbbbbbbbbbbbbbb22")]

def w2Inv : Doc :=
  [("_id", Val.str "aaaaaaaaaaaaaaaaaaaaaa22"), ("amount", Val.num 1000),
   ("amount_received", Val.num 0), ("payment_status", Val.str "Pending")]

def w2DB : DB := { customer := [w2Cust], invoice := [w2Inv] }

def w2P1 : Payment :=
  { payment_id := "P1", invoice_id := "aaaaaaaaaaaaaaaaaaaaaa22",
    customer_id := "bbbbbbbbbbbbbbbbbbbbbb22", amount := 300 }

def w2P2 : Payment :=
  { payment_id := "P2", invoice_id := "aaaaaaaaaaaaaaaaaaaaaa22",
    customer_id := "bbbbbbbbbbbbbbbbbbbbbb22", amount := 400 }

def w2List : List (Payment × String) :=
  [(w2P1, "cccccccccccccccccccccc22"), (w2P2, "dddddddddddddddddddddd22")]

def w2Final : DB := (runPayments w2DB w2List 0).getD dbEmpty

/-- C2 witness: the spec scenario — payments of 300 then 400 against a
1000 invoice leave the stored amount_received equal to the re-aggregated
sum, which is 700. -/
theorem c2_payment_reaggregation_witness :
    (∃ d, findById w2Final.invoice "aaaaaaaaaaaaaaaaaaaaaa22" = some d ∧
      getField d "amount_received" =
        some (Val.num (paymentSum w2Final.payment
          "aaaaaaaaaaaaaaaaaaaaaa22"))) ∧
    paymentSum w2Final.payment "aaaaaaaaaaaaaaaaaaaaaa22" = 700 :=
  ⟨(c2_payment_reaggregation w2DB w2Final "aaaaaaaaaaaaaaaaaaaaaa22" w2List 0
      (by decide) (by decide) rfl).1,
    by
      rw [show paymentSum w2Final.payment "aaaaaaaaaaaaaaaaaaaaaa22" =
        300 + (400 + 0) from rfl]
      norm_num⟩

/-! Frame property for Invoice.amount_received. -/

/-- C8 (amended): of all the state-mutating operations of the API, only
payment creation — and a document upload targeting the invoice collection
whose unvalidated `field` path parameter is literally "amount_received" —
can change the amount_received of a stored invoice; every other operation
leaves the amount_received of every already-stored invoice unchanged
(creation may append new invoices, hence the suffix `t`). -/
theorem c8_received_frame (s : DB) (op : Op)
    (hop : opTouchesReceived op = false) :
    ∃ t, (Op.step s op).invoice.map (fun d => getField d "amount_received") =
      s.invoice.map (fun d => getField d "amount_received") ++ t := by
  cases op with
  | createCustomer p nid now => exact ⟨[], by simp [Op.step, create_customer]⟩
  | createPo p nid now =>
    refine ⟨[], ?_⟩
    simp only [Op.step]
    unfold create_po
    cases resolveRef s.customer p.customer_id "Customer not found"
      "Invalid customer_id" <;> simp
  | createInvoice p nid now =>
    simp only [Op.step]
    unfold create_invoice
    cases resolveRef s.po p.po_id "PO not found" "Invalid po_id" with
    | error e => exact ⟨[], by simp⟩
    | ok x =>
      cases resolveRef s.customer p.customer_id "Customer not found"
          "Invalid customer_id" with
      | error e => exact ⟨[], by simp⟩
      | ok y =>
        exact ⟨[getField (invoice_insert_doc p now nid) "amount_received"],
          by simp⟩
  | createAgreement p nid now today =>
    refine ⟨[], ?_⟩
    simp only [Op.step]
    unfold create_agreement
    cases resolveRef s.customer p.customer_id "Customer not found"
      "Invalid customer_id" <;> simp
  | createPayment p nid now => simp [opTouchesReceived] at hop
  | uploadDoc entity entityId field ts filename now =>
    simp only [opTouchesReceived] at hop
    refine ⟨[], ?_⟩
    simp only [Op.step]
    simp only [upload_document]
    by_cases hg : (lowerStr entity == "customer" || lowerStr entity == "po" ||
        lowerStr entity == "invoice" || lowerStr entity == "agreement") = true
    · rw [if_pos hg]
      by_cases hw : wellFormedId entityId = true
      · rw [if_pos hw]
        by_cases h1 : (lowerStr entity == "customer") = true
        · rw [if_pos h1]; simp
        · rw [if_neg h1]
          by_cases h2 : (lowerStr entity == "po") = true
          · rw [if_pos h2]; simp
          · rw [if_neg h2]
            by_cases h3 : (lowerStr entity == "invoice") = true
            · rw [if_pos h3]
              rw [h3, Bool.true_and] at hop
              have hne : "amount_received" ≠ field :=
                Ne.symm (beq_eq_false_iff_ne.mp hop)
              refine Eq.trans ?_ (List.append_nil _).symm
              exact map_updateOne _ _ _ _ (fun d => by
                rw [getField_setField_ne _ _ _ _
                    (by decide : "amount_received" ≠ "updated_at"),
                  getField_setField_ne _ _ _ _ hne])
            · rw [if_neg h3]; simp
      · rw [if_neg hw]; simp
    · rw [if_neg hg]; simp

def c8Doc : Doc :=
  [("_id", Val.str "abcdefabcdefabcdefabcdef"),
   ("amount_received", Val.num 50)]

def c8DB : DB := { invoice := [c8Doc] }

/-- C8 counterexample: POST /api/upload/invoice/{id}/amount_received against
an existing invoice overwrites its stored amount_received with the blob URL
string — an operation other than payment creation that mutates the field,
refuting the claim as stated. -/
theorem c8_upload_overwrites_received :
    getField c8Doc "amount_received" = some (Val.num 50) ∧
    getField ((upload_document c8DB "invoice" "abcdefabcdefabcdefabcdef"
        "amount_received" "20240101000000" "f.pdf" 0).1.invoice.headD [])
      "amount_received" =
      some (Val.str (save_upload "invoice" "abcdefabcdefabcdefabcdef"
        "amount_received" "20240101000000" "f.pdf")) ∧
    ¬ getField ((upload_document c8DB "invoice" "abcdefabcdefabcdefabcdef"
        "amount_received" "20240101000000" "f.pdf" 0).1.invoice.headD [])
      "amount_received" = some (Val.num 50) := by
  exact ⟨rfl, rfl, by decide⟩

/-- C8 witness: an upload against the invoice collection with any other
field name leaves every stored amount_received unchanged. -/
theorem c8_received_frame_witness :
    ∃ t, (Op.step c8DB (Op.uploadDoc "invoice" "abcdefabcdefabcdefabcdef"
        "invoice_pdf_url" "20240101000000" "f.pdf" 0)).invoice.map
        (fun d => getField d "amount_received") =
      c8DB.invoice.map (fun d => getField d "amount_received") ++ t :=
  c8_received_frame c8DB
    (Op.uploadDoc "invoice" "abcdefabcdefabcdefabcdef" "invoice_pdf_url"
      "20240101000000" "f.pdf" 0) (by decide)

/-! Renewal notifier. -/

/-- C9: a renewal check dispatches a notification — exactly one, the
function's result is a single optional message — iff the agreement exists,
its end_date is present and parseable, and
end_date − 30 ≤ today ≤ end_date; when it fires, the message carries the
agreement name, type, customer reference and end date to the configured
admin recipient.  The check reads the store and writes nothing (its type
returns no store), so no deduplication state exists: re-running it in the
due window necessarily re-sends the same message. -/
theorem c9_renewal_check (s : DB) (aid : String) (today : Int)
    (email : String) (hwf : wellFormedId aid = true) :
    ((check_and_notify_agreement s aid today email).isSome = true ↔
      ∃ ag, findById s.agreement aid = some ag ∧
        ∃ e, readEndDate (getField ag "end_date") = some e ∧
          e - 30 ≤ today ∧ today ≤ e) ∧
    (∀ ag e, findById s.agreement aid = some ag →
      readEndDate (getField ag "end_date") = some e →
      e - 30 ≤ today → today ≤ e →
      check_and_notify_agreement s aid today email = some
        { recipients := [email],
          subject := "Renewal due for " ++ showField ag "name" ++ " (" ++
            showField ag "type" ++ ")",
          body := "Agreement " ++ showField ag "name" ++ " for customer " ++
            showField ag "customer_id" ++ " is due on " ++ toString e ++
            ".\nPlease review and renew." }) := by
  constructor
  · constructor
    · intro hsome
      unfold check_and_notify_agreement at hsome
      rw [if_pos hwf] at hsome
      split at hsome
      next => simp at hsome
      next ag hag =>
        split at hsome
        next => simp at hsome
        next e hre =>
          split at hsome
          next hc => exact ⟨ag, hag, e, hre, hc.1, hc.2⟩
          next hc => simp at hsome
    · rintro ⟨ag, hag, e, hre, h1, h2⟩
      unfold check_and_notify_agreement
      rw [if_pos hwf, hag]
      dsimp only
      rw [hre]
      dsimp only
      rw [if_pos ⟨h1, h2⟩]
      rfl
  · intro ag e hag hre h1 h2
    unfold check_and_notify_agreement
    rw [if_pos hwf, hag]
    dsimp only
    rw [hre]
    dsimp only
    rw [if_pos ⟨h1, h2⟩]

def w9Ag : Doc :=
  [("_id", Val.str "9999999999999999999999aa"), ("name", Val.str "MSA"),
   ("type", Val.str "Agreement"),
   ("customer_id", Val.str "bbbbbbbbbbbbbbbbbbbbbb99"),
   ("end_date", Val.dat 100)]

def w9DB : DB := { agreement := [w9Ag] }

/-- C9 witness: an agreement ending on day 100, checked on day 80, fires a
notification carrying its name, type, customer reference and end date. -/
theorem c9_renewal_check_witness :
    check_and_notify_agreement w9DB "9999999999999999999999aa" 80
        "admin@example.com" =
      some { recipients := ["admin@example.com"],
             subject := "Renewal due for " ++ showField w9Ag "name" ++
               " (" ++ showField w9Ag "type" ++ ")",
             body := "Agreement " ++ showField w9Ag "name" ++
               " for customer " ++ showField w9Ag "customer_id" ++
               " is due on " ++ toString (100 : Int) ++
               ".\nPlease review and renew." } :=
  (c9_renewal_check w9DB "9999999999999999999999aa" 80 "admin@example.com"
    (by decide)).2 w9Ag 100 rfl rfl (by decide) (by decide)

/-! Uploads against ids that match nothing. -/

/-- C10: POST /api/upload/{entity}/{entity_id}/{field} with a supported
entity and a well-formed entity_id that matches no stored document still
saves the blob and answers `{url}` with success — `update_one` simply
matches nothing — and every stored document in every collection is left
untouched. -/
theorem c10_upload_unknown_id (s : DB)
    (entity entityId field ts filename : String) (now : Int)
    (hent : lowerStr entity = "customer" ∨ lowerStr entity = "po" ∨
      lowerStr entity = "invoice" ∨ lowerStr entity = "agreement")
    (hwf : wellFormedId entityId = true)
    (hmiss : ∀ d, (d ∈ s.customer ∨ d ∈ s.po ∨ d ∈ s.invoice ∨
        d ∈ s.agreement) →
      ¬ getField d "_id" = some (Val.str entityId)) :
    (upload_document s entity entityId field ts filename now).2 =
      Except.ok (save_upload (lowerStr entity) entityId field ts filename) ∧
    (upload_document s entity entityId field ts filename now).1.customer =
      s.customer ∧
    (upload_document s entity entityId field ts filename now).1.po = s.po ∧
    (upload_document s entity entityId field ts filename now).1.invoice =
      s.invoice ∧
    (upload_document s entity entityId field ts filename now).1.agreement =
      s.agreement ∧
    (upload_document s entity entityId field ts filename now).1.payment =
      s.payment ∧
    (upload_document s entity entityId field ts filename now).1.uploads =
      s.uploads ++
        [save_upload (lowerStr entity) entityId field ts filename] := by
  rcases hent with h | h | h | h
  · simp only [upload_document, h]
    rw [if_pos (by rfl :
        ("customer" == "customer" || "customer" == "po" ||
          "customer" == "invoice" || "customer" == "agreement") = true),
      if_pos hwf, if_pos (by rfl : ("customer" == "customer") = true)]
    refine ⟨rfl, ?_, rfl, rfl, rfl, rfl, rfl⟩
    exact updateOne_eq_self _ _ _
      (fun d hd => beq_eq_false_iff_ne.mpr (hmiss d (Or.inl hd)))
  · simp only [upload_document, h]
    rw [if_pos (by rfl :
        ("po" == "customer" || "po" == "po" ||
          "po" == "invoice" || "po" == "agreement") = true),
      if_pos hwf, if_neg (by decide : ¬ ("po" == "customer") = true),
      if_pos (by rfl : ("po" == "po") = true)]
    refine ⟨rfl, rfl, ?_, rfl, rfl, rfl, rfl⟩
    exact updateOne_eq_self _ _ _
      (fun d hd => beq_eq_false_iff_ne.mpr (hmiss d (Or.inr (Or.inl hd))))
  · simp only [upload_document, h]
    rw [if_pos (by rfl :
        ("invoice" == "customer" || "invoice" == "po" ||
          "invoice" == "invoice" || "invoice" == "agreement") = true),
      if_pos hwf,
      if_neg (by decide : ¬ ("invoice" == "customer") = true),
      if_neg (by decide : ¬ ("invoice" == "po") = true),
      if_pos (by rfl : ("invoice" == "invoice") = true)]
    refine ⟨rfl, rfl, rfl, ?_, rfl, rfl, rfl⟩
    exact updateOne_eq_self _ _ _
      (fun d hd =>
        beq_eq_false_iff_ne.mpr (hmiss d (Or.inr (Or.inr (Or.inl hd)))))
  · simp only [upload_document, h]
    rw [if_pos (by rfl :
        ("agreement" == "customer" || "agreement" == "po" ||
          "agreement" == "invoice" || "agreement" == "agreement") = true),
      if_pos hwf,
      if_neg (by decide : ¬ ("agreement" == "customer") = true),
      if_neg (by decide : ¬ ("agreement" == "po") = true),
      if_neg (by decide : ¬ ("agreement" == "invoice") = true)]
    refine ⟨rfl, rfl, rfl, rfl, ?_, rfl, rfl⟩
    exact updateOne_eq_self _ _ _
      (fun d hd =>
        beq_eq_false_iff_ne.mpr (hmiss d (Or.inr (Or.inr (Or.inr hd)))))

def w10Cust : Doc := [("_id", Val.str "1212121212121212121212aa")]

def w10DB : DB := { customer := [w10Cust] }

/-- C10 witness: uploading to an invoice id that matches nothing still
returns the URL and modifies no collection. -/
theorem c10_upload_unknown_id_witness :
    (upload_document w10DB "invoice" "3434343434343434343434aa"
        "invoice_pdf_url" "20240101000000" "f.pdf" 0).2 =
      Except.ok (save_upload (lowerStr "invoice") "3434343434343434343434aa"
        "invoice_pdf_url" "20240101000000" "f.pdf") ∧
    (upload_document w10DB "invoice" "3434343434343434343434aa"
        "invoice_pdf_url" "20240101000000" "f.pdf" 0).1.customer =
      w10DB.customer ∧
    (upload_document w10DB "invoice" "3434343434343434343434aa"
        "invoice_pdf_url" "20240101000000" "f.pdf" 0).1.invoice =
      w10DB.invoice ∧
    (upload_document w10DB "invoice" "3434343434343434343434aa"
        "invoice_pdf_url" "20240101000000" "f.pdf" 0).1.uploads =
      w10DB.uploads ++
        [save_upload (lowerStr "invoice") "3434343434343434343434aa"
          "invoice_pdf_url" "20240101000000" "f.pdf"] := by
  have h := c10_upload_unknown_id w10DB "invoice" "3434343434343434343434aa"
    "invoice_pdf_url" "20240101000000" "f.pdf" 0
    (Or.inr (Or.inr (Or.inl rfl))) (by decide)
    (by
      intro d hd
      rcases hd with hd | hd | hd | hd
      · rcases List.mem_singleton.mp hd with rfl
        decide
      · exact absurd hd (List.not_mem_nil d)
      · exact absurd hd (List.not_mem_nil d)
      · exact absurd hd (List.not_mem_nil d))
  exact ⟨h.1, h.2.1, h.2.2.2.1, h.2.2.2.2.2.2⟩
